import Mathlib

/-!
Verification of the VirusTotal scanner client (`src/vt_scanner.py`,
`src/config.py`) against its specification.  Python JSON values are shallowly
embedded as the inductive `Json`; HTTP traffic, the filesystem cache and wall
clock time are passed explicitly.
-/

namespace VTCheck

/-- Shallow embedding of a Python JSON value (as produced by `json.load` /
`response.json()`).  Numbers are modelled as integers, which covers every
field the scanner reads. -/
inductive Json where
  | null
  | bool (b : Bool)
  | num (n : Int)
  | str (s : String)
  | arr (elems : List Json)
  | obj (fields : List (String × Json))

/-- Python truthiness (`if x:`) restricted to JSON values. -/
def pyTruthy : Json → Bool
  | .null => false
  | .bool b => b
  | .num n => n != 0
  | .str s => s != ""
  | .arr xs => !xs.isEmpty
  | .obj fs => !fs.isEmpty

/-- The single-quote character used by Python `repr` for strings. -/
def pyQuote : String := String.mk [Char.ofNat 39]

mutual
/-- Python `repr()` of a JSON value (string escaping elided: the scanner only
ever renders digest strings, which contain no metacharacters). -/
def pyRepr : Json → String
  | .null => "None"
  | .bool true => "True"
  | .bool false => "False"
  | .num n => toString n
  | .str s => pyQuote ++ s ++ pyQuote
  | .arr xs => "[" ++ pyReprSeq xs ++ "]"
  | .obj fs => "\x7b" ++ pyReprFields fs ++ "\x7d"

/-- Comma-separated `repr`s of list elements. -/
def pyReprSeq : List Json → String
  | [] => ""
  | [x] => pyRepr x
  | x :: y :: xs => pyRepr x ++ ", " ++ pyReprSeq (y :: xs)

/-- Comma-separated `repr`s of dict entries. -/
def pyReprFields : List (String × Json) → String
  | [] => ""
  | [(k, v)] => pyQuote ++ k ++ pyQuote ++ ": " ++ pyRepr v
  | (k, v) :: f :: fs =>
      pyQuote ++ k ++ pyQuote ++ ": " ++ pyRepr v ++ ", " ++ pyReprFields (f :: fs)
end

/-- Python `str()` of a JSON value (as used in an f-string): identical to
`repr` except that a top-level string is rendered without quotes. -/
def pyStr : Json → String
  | .str s => s
  | j => pyRepr j

/-- The Python exceptions the scanner can raise or handle.  `exceptionMsg`
models a generic `raise Exception(...)` (the wrapped errors of
`vt_scanner.py`); `keyError` / `typeError` / `attributeError` / `ioError`
model the builtin exceptions; `outOfResponses` is a model artefact used when
a finite response trace is exhausted by the (in reality unbounded) polling
loop. -/
inductive PyError where
  | exceptionMsg (msg : String)
  | keyError
  | typeError
  | attributeError
  | ioError
  | fileNotFoundError
  | outOfResponses

/-- Python subscription `j["k"]` with a string key: a key lookup on a dict
(first binding wins, as dict keys are unique), a `KeyError` when absent, and
a `TypeError` when the value is not a dict. -/
def pyGetItem : Json → String → Except PyError Json
  | .obj fs, k =>
      match fs.lookup k with
      | some v => .ok v
      | none => .error .keyError
  | _, _ => .error .typeError

/-- Python `d.get(k, default)` on a JSON object represented as a field list. -/
def pyDictGet (fs : List (String × Json)) (k : String) (default : Json) : Json :=
  match fs.lookup k with
  | some v => v
  | none => default

/-- `stats.get(k, 0)` as it is consumed by `parse_results`: a missing key
yields `0`; a numeric (or boolean, since Python `bool` is an `int`) value is
used as an integer; any other value would make the subsequent arithmetic or
comparison raise a `TypeError` (caught by `parse_results`). -/
def getStat (fs : List (String × Json)) (k : String) : Except PyError Int :=
  match fs.lookup k with
  | none => .ok 0
  | some (.num n) => .ok n
  | some (.bool b) => .ok (if b then 1 else 0)
  | some _ => .error .typeError

/-- The normalized summary dict returned by
`VirusTotalScanner.parse_results` (`vt_scanner.py` lines 251-261). -/
structure VerdictSummary where
  threat_level : String
  color : String
  detections : Int
  suspicious : Int
  total_scans : Int
  sha256 : Json
  md5 : Json
  sha1 : Json
  file_type : Json
  file_size : Json
  last_analysis_date : Json
  permalink : String
  raw_stats : Json

/-- The stats dict chosen by `parse_results` (`vt_scanner.py` lines
210-214): `attrs.get("stats", {})`, replaced by `attrs["last_analysis_stats"]`
when that key is present (the stored file-report shape). -/
def chooseStats (attrs : List (String × Json)) : Json :=
  match attrs.lookup "last_analysis_stats" with
  | some las => las
  | none => pyDictGet attrs "stats" (.obj [])

/-- The summary record built from the attribute dict, the chosen stats dict
and the four extracted engine counts (`vt_scanner.py` lines 216-261). -/
def mkSummary (attrs : List (String × Json)) (stats : Json)
    (malicious suspicious undetected harmless : Int) : VerdictSummary :=
  let tl : String × String :=
    if malicious > 0 then ("MALICIOUS", "red")
    else if suspicious > 0 then ("SUSPICIOUS", "yellow")
    else ("CLEAN", "green")
  let sha256v := pyDictGet attrs "sha256" (.str "N/A")
  let lad0 := pyDictGet attrs "last_analysis_date" .null
  { threat_level := tl.1
    color := tl.2
    detections := malicious
    suspicious := suspicious
    total_scans := malicious + suspicious + undetected + harmless
    sha256 := sha256v
    md5 := pyDictGet attrs "md5" (.str "N/A")
    sha1 := pyDictGet attrs "sha1" (.str "N/A")
    file_type := pyDictGet attrs "type_description" (.str "Unknown")
    file_size := pyDictGet attrs "size" (.num 0)
    last_analysis_date := if pyTruthy lad0 then lad0 else pyDictGet attrs "date" .null
    permalink := "https://www.virustotal.com/gui/file/" ++ pyStr sha256v
    raw_stats := stats }

/-- `VirusTotalScanner.parse_results` (`vt_scanner.py` lines 198-264).
The `try` block wraps everything; `KeyError` and `TypeError` are caught and
re-raised as `Exception("Error parsing results: ...")` (modelled as
`.exceptionMsg "Error parsing results"`), while an `AttributeError` (from
calling `.get` on a non-dict `attrs` or `stats`) escapes unhandled. -/
def parse_results (analysis_data : Json) : Except PyError VerdictSummary :=
  match pyGetItem analysis_data "data" with
  | .error _ => .error (.exceptionMsg "Error parsing results")
  | .ok d =>
  match pyGetItem d "attributes" with
  | .error _ => .error (.exceptionMsg "Error parsing results")
  | .ok (.obj attrs) =>
    (match chooseStats attrs with
     | .obj statsFs =>
       match getStat statsFs "malicious", getStat statsFs "suspicious",
             getStat statsFs "undetected", getStat statsFs "harmless" with
       | .ok m, .ok s, .ok u, .ok h => .ok (mkSummary attrs (.obj statsFs) m s u h)
       | _, _, _, _ => .error (.exceptionMsg "Error parsing results")
     | _ => .error .attributeError)
  | .ok _ => .error .attributeError

/-- Outcome of one HTTP request: a response with a status code and a parsed
JSON body, or a transport-level failure
(`requests.exceptions.RequestException`). -/
inductive HttpResp where
  | resp (code : Nat) (body : Json)
  | netFail

def BASE_URL : String := "https://www.virustotal.com/api/v3"

/-- `requests.Response.raise_for_status` raises `HTTPError` exactly for
status codes `≥ 400`. -/
def raisesForStatus (code : Nat) : Bool := 400 ≤ code

/-- `VirusTotalScanner.check_hash` (`vt_scanner.py` lines 51-74): `200`
returns the body, `404` returns `None`; any code `≥ 400` makes
`raise_for_status` throw, which the `except` clause wraps into
`Exception("Error checking hash: ...")`.  A code in `201..399` falls out of
the `if/elif/else` and the function implicitly returns `None`. -/
def check_hash (r : HttpResp) : Except PyError (Option Json) :=
  match r with
  | .netFail => .error (.exceptionMsg "Error checking hash")
  | .resp code body =>
      if code = 200 then .ok (some body)
      else if code = 404 then .ok none
      else if raisesForStatus code then .error (.exceptionMsg "Error checking hash")
      else .ok none

/-- Environment of one `upload_file` call: the size reported by
`file_path.stat().st_size`, the response to the `GET files/upload_url`
request, and the response to the `POST` as a function of the URL posted
to. -/
structure UploadEnv where
  file_size : Nat
  upload_url_resp : HttpResp
  post : Json → HttpResp

def MAX_UPLOAD_SIZE : Nat := 32 * 1024 * 1024

def FILES_URL : String := BASE_URL ++ "/files"

/-- `VirusTotalScanner._get_upload_url` (`vt_scanner.py` lines 114-123):
network failures and HTTP errors are wrapped; the `["data"]` subscription on
the parsed body can raise an unhandled `KeyError`/`TypeError`. -/
def get_upload_url (env : UploadEnv) : Except PyError Json :=
  match env.upload_url_resp with
  | .netFail => .error (.exceptionMsg "Error getting upload URL")
  | .resp code body =>
      if raisesForStatus code then .error (.exceptionMsg "Error getting upload URL")
      else pyGetItem body "data"

/-- The value of the local variable `url` at the moment `requests.post` is
invoked in `upload_file` (`vt_scanner.py` lines 86-94): the dedicated upload
URL for files above `MAX_UPLOAD_SIZE`, the standard files endpoint
otherwise. -/
def upload_url_used (env : UploadEnv) : Except PyError Json :=
  if env.file_size > MAX_UPLOAD_SIZE then get_upload_url env
  else .ok (.str FILES_URL)

/-- The `requests.post` call of `upload_file` and the extraction
`data["data"]["id"]` (`vt_scanner.py` lines 97-109): transport failures and
HTTP errors are wrapped into `Exception("Error uploading file: ...")`; a
missing `data`/`id` member raises an unhandled `KeyError`/`TypeError`. -/
def upload_post (env : UploadEnv) (url : Json) : Except PyError Json :=
  match env.post url with
  | .netFail => .error (.exceptionMsg "Error uploading file")
  | .resp code body =>
      if raisesForStatus code then .error (.exceptionMsg "Error uploading file")
      else
        match pyGetItem body "data" with
        | .error e => .error e
        | .ok d => pyGetItem d "id"

/-- `VirusTotalScanner.upload_file` (`vt_scanner.py` lines 76-112), returning
the analysis id. -/
def upload_file (env : UploadEnv) : Except PyError Json :=
  match upload_url_used env with
  | .error e => .error e
  | .ok url => upload_post env url

/-- `time.sleep(5)` between poll attempts (`vt_scanner.py` line 160). -/
def POLL_INTERVAL : Nat := 5

/-- Default `max_wait` of `get_analysis` (`vt_scanner.py` line 125). -/
def DEFAULT_MAX_WAIT : Nat := 300

/-- One successful poll response: the reported
`data["data"]["attributes"]["status"]`, the full payload, and the number of
seconds the request itself took (so that `time.time() - start_time` at this
iteration's timeout check is the accumulated elapsed time plus `d`). -/
abbrev PollStep := String × Json × Nat

/-- The `while True` loop of `VirusTotalScanner.get_analysis`
(`vt_scanner.py` lines 141-163), driven by a finite trace of successful
responses; `elapsed` is `time.time() - start_time` at the start of the
iteration.  Per iteration: the request takes `d` seconds, then the status
test, the `wait` test, the timeout test (`elapsed > max_wait`, strict), and
finally a `POLL_INTERVAL`-second sleep before the next iteration. -/
def get_analysis_loop (wait : Bool) (max_wait : Nat) :
    Nat → List PollStep → Except PyError Json
  | _, [] => .error .outOfResponses
  | elapsed, (status, payload, d) :: rest =>
      let t := elapsed + d
      if status = "completed" then .ok payload
      else if wait = false then .ok payload
      else if max_wait < t then
        .error (.exceptionMsg "Analysis timeout - file is still being processed")
      else get_analysis_loop wait max_wait (t + POLL_INTERVAL) rest

/-- `VirusTotalScanner.get_analysis` (`vt_scanner.py` lines 125-163). -/
def get_analysis (wait : Bool) (max_wait : Nat) (steps : List PollStep) :
    Except PyError Json :=
  get_analysis_loop wait max_wait 0 steps

/-- Environment of one `scan_file` call: whether the path exists, the
response to the hash lookup, and the upload / polling environments. -/
structure ScanEnv where
  file_exists : Bool
  lookup_resp : HttpResp
  uploadEnv : UploadEnv
  analysis_steps : List PollStep

/-- The upload-then-poll tail of `scan_file` (`vt_scanner.py` lines
190-196): upload, wait for the analysis (`wait=True`, default
`max_wait=300`), and return `(analysis_data, True)`. -/
def scan_upload_and_poll (env : ScanEnv) : Except PyError (Json × Bool) :=
  match upload_file env.uploadEnv with
  | .error e => .error e
  | .ok _analysis_id =>
      match get_analysis true DEFAULT_MAX_WAIT env.analysis_steps with
      | .error e => .error e
      | .ok analysis_data => .ok (analysis_data, true)

/-- `VirusTotalScanner.scan_file` (`vt_scanner.py` lines 165-196).  Note the
Python truthiness test `if existing_data:` on the lookup result, and that
the hash lookup is only performed when `force_upload` is false. -/
def scan_file (env : ScanEnv) (force_upload : Bool) : Except PyError (Json × Bool) :=
  if env.file_exists = false then .error .fileNotFoundError
  else if force_upload = false then
    match check_hash env.lookup_resp with
    | .error e => .error e
    | .ok (some existing_data) =>
        if pyTruthy existing_data then .ok (existing_data, false)
        else scan_upload_and_poll env
    | .ok none => scan_upload_and_poll env
  else scan_upload_and_poll env

/-! ### The result cache (`config.py` lines 148-225)

The cache directory holds one file `<hash>.json` per content hash; it is
modelled as an association list of (hash, payload, mtime) with unique
hashes, together with the current wall-clock time `now` (both in seconds,
`Int` like the result of a Python `time.time()` subtraction). -/

abbrev CacheState := List (String × Json × Int)

/-- Directory lookup of `<hash>.json` together with its `st_mtime`. -/
def cacheFind (st : CacheState) (h : String) : Option (Json × Int) :=
  match st.find? (fun e => e.1 == h) with
  | some e => some e.2
  | none => none

/-- `cache_file.unlink()`: remove the entry for `h`. -/
def cacheErase (st : CacheState) (h : String) : CacheState :=
  st.filter (fun e => e.1 != h)

/-- Writing `<hash>.json`: replaces any previous file for that hash. -/
def cacheInsert (st : CacheState) (h : String) (payload : Json) (mtime : Int) :
    CacheState :=
  (h, payload, mtime) :: cacheErase st h

def DEFAULT_MAX_AGE_DAYS : Int := 7

/-- `Config.get_cached_result` (`config.py` lines 160-191): no file means
`None`; a file whose age `now - mtime` strictly exceeds
`max_age_days * 24 * 60 * 60` seconds is deleted and `None` is returned;
otherwise the stored payload is returned.  (The stored payloads are JSON
values written by `cache_result`, so the `json.load` of a surviving entry
succeeds.)  Returns the result together with the cache state after the
call. -/
def get_cached_result (st : CacheState) (now : Int) (file_hash : String)
    (max_age_days : Int) : Option Json × CacheState :=
  match cacheFind st file_hash with
  | none => (none, st)
  | some (payload, mtime) =>
      let cache_age_seconds := now - mtime
      let max_age_seconds := max_age_days * 24 * 60 * 60
      if cache_age_seconds > max_age_seconds then
        (none, cacheErase st file_hash)
      else
        (some payload, st)

/-- The `json.dump` write inside `cache_result`, which can raise `IOError`
(modelled by the `writeFails` flag). -/
def cache_write (st : CacheState) (now : Int) (file_hash : String)
    (result : Json) (writeFails : Bool) : Except PyError CacheState :=
  if writeFails then .error .ioError else .ok (cacheInsert st file_hash result now)

/-- `Config.cache_result` (`config.py` lines 193-208): the write is wrapped
in `try: ... except IOError: pass`, so a failed write leaves the cache
unchanged and no exception escapes. -/
def cache_result (st : CacheState) (now : Int) (file_hash : String)
    (result : Json) (writeFails : Bool) : Except PyError CacheState :=
  match cache_write st now file_hash result writeFails with
  | .error _ => .ok st
  | .ok newSt => .ok newSt

/-! ### Credential resolution (`config.py` lines 35-61) -/

/-- The persisted config file as `get_api_key` sees it: absent, unreadable
(`IOError` or `json.JSONDecodeError`, both caught and skipped), or a parsed
JSON object given by its field list.  (A file holding a non-object JSON
value would make `config_data.get` raise an unhandled `AttributeError`;
`set_api_key` only ever writes objects, so that shape is outside the
model.) -/
inductive ConfigFile where
  | missing
  | unreadable
  | content (fields : List (String × Json))

/-- The config-file branch of `get_api_key` (`config.py` lines 53-61):
`config_data.get("api_key")` returns Python `None` both for a missing key
and for a stored JSON `null`, and the function returns that value
directly. -/
def readApiKeyFromFile : ConfigFile → Option Json
  | .missing => none
  | .unreadable => none
  | .content fs =>
      match fs.lookup "api_key" with
      | none => none
      | some .null => none
      | some v => some v

/-- `Config.get_api_key` (`config.py` lines 35-61): `env_key` is
`os.getenv("VT_API_KEY")` (`none` when unset); the guard is the truthiness
test `if env_key:`, so an empty string falls through to the config file. -/
def get_api_key (env_key : Option String) (cfg : ConfigFile) : Option Json :=
  match env_key with
  | some k => if k != "" then some (.str k) else readApiKeyFromFile cfg
  | none => readApiKeyFromFile cfg

/-! ### Specification-side predicates used to state the claims -/

/-- The engine count a stats dict reports under key `k`, read the way
`parse_results` reads it (missing key counts as `0`). -/
def statOrZero (stats : Json) (k : String) : Int :=
  match stats with
  | .obj fs =>
      match fs.lookup k with
      | some (.num n) => n
      | some (.bool b) => if b then 1 else 0
      | _ => 0
  | _ => 0

/-- The fields `parse_results` unconditionally requires are structurally
absent: the `["data"]` or the `["attributes"]` subscription fails. -/
def requiredAbsent (j : Json) : Bool :=
  match pyGetItem j "data" with
  | .error _ => true
  | .ok d =>
      match pyGetItem d "attributes" with
      | .error _ => true
      | .ok _ => false

/-- Every timeout check of the polling loop stays within the ceiling, when
the loop starts with `time.time() - start_time = elapsed`. -/
def pollsWithin (max_wait : Nat) : Nat → List PollStep → Bool
  | _, [] => true
  | elapsed, (_, _, d) :: rest =>
      decide (elapsed + d ≤ max_wait) && pollsWithin max_wait (elapsed + d + POLL_INTERVAL) rest

/-- No response in the trace reports status `"completed"`. -/
def noCompleted : List PollStep → Bool
  | [] => true
  | (s, _, _) :: rest => s != "completed" && noCompleted rest

/-- Some timeout check of the polling loop exceeds the ceiling. -/
def exceedsCeiling (max_wait : Nat) : Nat → List PollStep → Bool
  | _, [] => false
  | elapsed, (_, _, d) :: rest =>
      decide (max_wait < elapsed + d) || exceedsCeiling max_wait (elapsed + d + POLL_INTERVAL) rest

/-- A lookup response that is neither a success (`2xx`/`3xx` has
`raise_for_status` pass) nor the documented `404` miss. -/
def fatalLookupResp (r : HttpResp) : Bool :=
  match r with
  | .netFail => true
  | .resp code _ => decide (400 ≤ code) && decide (code ≠ 404)

/-! ### Helper lemmas -/

theorem mkSummary_detections (attrs : List (String × Json)) (stats : Json)
    (m su u h : Int) : (mkSummary attrs stats m su u h).detections = m := rfl

theorem mkSummary_suspicious (attrs : List (String × Json)) (stats : Json)
    (m su u h : Int) : (mkSummary attrs stats m su u h).suspicious = su := rfl

theorem mkSummary_total_scans (attrs : List (String × Json)) (stats : Json)
    (m su u h : Int) :
    (mkSummary attrs stats m su u h).total_scans = m + su + u + h := rfl

theorem mkSummary_raw_stats (attrs : List (String × Json)) (stats : Json)
    (m su u h : Int) : (mkSummary attrs stats m su u h).raw_stats = stats := rfl

theorem mkSummary_threat_level (attrs : List (String × Json)) (stats : Json)
    (m su u h : Int) :
    (mkSummary attrs stats m su u h).threat_level =
      (if m > 0 then "MALICIOUS" else if su > 0 then "SUSPICIOUS" else "CLEAN") := by
  simp only [mkSummary]
  split
  · rfl
  · split
    · rfl
    · rfl

theorem getStat_eq_statOrZero (fs : List (String × Json)) (k : String) (v : Int)
    (h : getStat fs k = .ok v) : statOrZero (.obj fs) k = v := by
  unfold getStat at h
  cases hl : fs.lookup k with
  | none =>
      rw [hl] at h
      simp only [Except.ok.injEq] at h
      simp [statOrZero, hl, h]
  | some j =>
      rw [hl] at h
      cases j with
      | num n =>
          simp only [Except.ok.injEq] at h
          simp [statOrZero, hl, h]
      | bool b =>
          simp only [Except.ok.injEq] at h
          simp [statOrZero, hl, h]
      | null => simp at h
      | str s2 => simp at h
      | arr xs => simp at h
      | obj fs2 => simp at h

/-- Inversion of a successful `parse_results`: the summary is `mkSummary`
applied to the attribute dict, the chosen stats dict and the four engine
counts actually read from it. -/
theorem parse_results_ok_inv (j : Json) (s : VerdictSummary)
    (hps : parse_results j = .ok s) :
    ∃ (attrs statsFs : List (String × Json)) (m su u hh : Int),
      chooseStats attrs = .obj statsFs ∧
      getStat statsFs "malicious" = .ok m ∧
      getStat statsFs "suspicious" = .ok su ∧
      getStat statsFs "undetected" = .ok u ∧
      getStat statsFs "harmless" = .ok hh ∧
      s = mkSummary attrs (.obj statsFs) m su u hh := by
  unfold parse_results at hps
  split at hps
  · exact absurd hps (by simp)
  · split at hps
    · exact absurd hps (by simp)
    · split at hps
      · split at hps
        · exact ⟨_, _, _, _, _, _, by assumption, by assumption, by assumption,
            by assumption, by assumption, (Except.ok.inj hps).symm⟩
        · exact absurd hps (by simp)
      · exact absurd hps (by simp)
    · exact absurd hps (by simp)

/-! ### Example payloads for the classification claims -/

/-- Analysis payload with stats `{malicious:1, suspicious:0, undetected:69,
harmless:0}`. -/
def exC1mal : Json :=
  .obj [("data", .obj [("attributes", .obj [("stats", .obj
    [("malicious", .num 1), ("suspicious", .num 0),
     ("undetected", .num 69), ("harmless", .num 0)])])])]

/-- Analysis payload with stats `{malicious:0, suspicious:2, undetected:68}`. -/
def exC1susp : Json :=
  .obj [("data", .obj [("attributes", .obj [("stats", .obj
    [("malicious", .num 0), ("suspicious", .num 2), ("undetected", .num 68)])])])]

/-- Analysis payload with zero malicious and zero suspicious engines. -/
def exC1clean : Json :=
  .obj [("data", .obj [("attributes", .obj [("stats", .obj
    [("malicious", .num 0), ("suspicious", .num 0), ("undetected", .num 70)])])])]

/-- Minimal well-formed payload (empty attribute dict). -/
def exC1min : Json := .obj [("data", .obj [("attributes", .obj [])])]

/-- The summary `parse_results` produces for `exC1min`. -/
def sC1min : VerdictSummary := mkSummary [] (.obj []) 0 0 0 0

/-- C1: every parsed verdict is classified by the ordered rule
malicious > 0 → MALICIOUS, else suspicious > 0 → SUSPICIOUS, else CLEAN;
in particular stats {malicious:1, suspicious:0, undetected:69, harmless:0}
yield MALICIOUS with detections 1 and total_scans 70, stats
{malicious:0, suspicious:2, undetected:68} yield SUSPICIOUS, and stats with
zero malicious and zero suspicious engines yield CLEAN. -/
theorem C1_severity_classification :
    (∀ j s, parse_results j = .ok s →
      s.threat_level =
        (if s.detections > 0 then "MALICIOUS"
         else if s.suspicious > 0 then "SUSPICIOUS" else "CLEAN") ∧
      s.detections = statOrZero s.raw_stats "malicious" ∧
      s.suspicious = statOrZero s.raw_stats "suspicious") ∧
    (parse_results exC1mal).map
        (fun s => (s.threat_level, s.detections, s.total_scans)) =
      .ok ("MALICIOUS", 1, 70) ∧
    (parse_results exC1susp).map VerdictSummary.threat_level = .ok "SUSPICIOUS" ∧
    (parse_results exC1clean).map VerdictSummary.threat_level = .ok "CLEAN" := by
  refine ⟨?_, by rfl, by rfl, by rfl⟩
  intro j s hps
  obtain ⟨attrs, statsFs, m, su, u, hh, hstats, hm, hsu, hu, hhh, hs⟩ :=
    parse_results_ok_inv j s hps
  subst hs
  refine ⟨?_, ?_, ?_⟩
  · rw [mkSummary_threat_level, mkSummary_detections, mkSummary_suspicious]
  · rw [mkSummary_detections, mkSummary_raw_stats]
    exact (getStat_eq_statOrZero _ _ _ hm).symm
  · rw [mkSummary_suspicious, mkSummary_raw_stats]
    exact (getStat_eq_statOrZero _ _ _ hsu).symm

/-- Witness for C1 at the concrete payload `exC1min`. -/
theorem C1_severity_classification_witness :
    sC1min.threat_level =
      (if sC1min.detections > 0 then "MALICIOUS"
       else if sC1min.suspicious > 0 then "SUSPICIOUS" else "CLEAN") ∧
    sC1min.detections = statOrZero sC1min.raw_stats "malicious" ∧
    sC1min.suspicious = statOrZero sC1min.raw_stats "suspicious" :=
  C1_severity_classification.1 exC1min sC1min rfl

/-- Stats dict that also reports `timeout`, `type-unsupported` and `failure`
engine outcomes. -/
def exC6stats : Json :=
  .obj [("malicious", .num 1), ("suspicious", .num 0), ("undetected", .num 69),
    ("harmless", .num 0), ("timeout", .num 5), ("type-unsupported", .num 3),
    ("failure", .num 2)]

/-- Analysis payload whose stats carry the extra engine outcomes. -/
def exC6extra : Json :=
  .obj [("data", .obj [("attributes", .obj [("stats", exC6stats)])])]

/-- The summary `parse_results` produces for `exC6extra`. -/
def sC6extra : VerdictSummary :=
  mkSummary [("stats", exC6stats)] exC6stats 1 0 69 0

/-- C6: `total_scans` is the sum of the malicious, suspicious, undetected
and harmless engine counts, excluding any other engine outcomes (such as
timeout or type-unsupported) present in the stats. -/
theorem C6_total_scans_sum :
    (∀ j s, parse_results j = .ok s →
      s.total_scans =
        statOrZero s.raw_stats "malicious" + statOrZero s.raw_stats "suspicious" +
        statOrZero s.raw_stats "undetected" + statOrZero s.raw_stats "harmless") ∧
    (parse_results exC6extra).map VerdictSummary.total_scans = .ok 70 ∧
    (parse_results exC6extra).map VerdictSummary.raw_stats = .ok exC6stats := by
  refine ⟨?_, by rfl, by rfl⟩
  intro j s hps
  obtain ⟨attrs, statsFs, m, su, u, hh, hstats, hm, hsu, hu, hhh, hs⟩ :=
    parse_results_ok_inv j s hps
  subst hs
  rw [mkSummary_total_scans, mkSummary_raw_stats,
    getStat_eq_statOrZero _ _ _ hm, getStat_eq_statOrZero _ _ _ hsu,
    getStat_eq_statOrZero _ _ _ hu, getStat_eq_statOrZero _ _ _ hhh]

/-- Witness for C6 at the concrete payload `exC6extra`. -/
theorem C6_total_scans_sum_witness :
    sC6extra.total_scans =
      statOrZero sC6extra.raw_stats "malicious" + statOrZero sC6extra.raw_stats "suspicious" +
      statOrZero sC6extra.raw_stats "undetected" + statOrZero sC6extra.raw_stats "harmless" :=
  C6_total_scans_sum.1 exC6extra sC6extra rfl

/-- C4: when the fields `parse_results` requires to build a summary (the
`data` member and its `attributes` member) are structurally absent, it fails
with the wrapped parse error and never returns a summary. -/
theorem C4_parse_error_on_absent_fields :
    ∀ j, requiredAbsent j = true →
      parse_results j = .error (.exceptionMsg "Error parsing results") := by
  intro j hreq
  unfold requiredAbsent at hreq
  unfold parse_results
  cases hd : pyGetItem j "data" with
  | error e => rfl
  | ok d =>
      rw [hd] at hreq
      dsimp only at hreq ⊢
      cases ha : pyGetItem d "attributes" with
      | error e => rfl
      | ok a =>
          rw [ha] at hreq
          exact Bool.noConfusion hreq

/-- Witness for C4 at the concrete payload `{}` (no `data` member). -/
theorem C4_parse_error_on_absent_fields_witness :
    parse_results (Json.obj []) = .error (.exceptionMsg "Error parsing results") :=
  C4_parse_error_on_absent_fields (Json.obj []) rfl

/-! ### The polling loop (claim C2) -/

theorem get_analysis_loop_completes (max_wait : Nat) (pre : List PollStep) :
    ∀ elapsed, noCompleted pre = true → pollsWithin max_wait elapsed pre = true →
      ∀ (p : Json) (d : Nat) (rest : List PollStep),
        get_analysis_loop true max_wait elapsed (pre ++ ("completed", p, d) :: rest) =
          .ok p := by
  induction pre with
  | nil =>
      intro elapsed _ _ p d rest
      simp [get_analysis_loop]
  | cons step pre ih =>
      intro elapsed hnc hpw p d rest
      obtain ⟨s0, p0, d0⟩ := step
      simp only [noCompleted, Bool.and_eq_true, bne_iff_ne, ne_eq] at hnc
      simp only [pollsWithin, Bool.and_eq_true, decide_eq_true_eq] at hpw
      have hns : ¬(s0 = "completed") := hnc.1
      have hnt : ¬(max_wait < elapsed + d0) := Nat.not_lt.mpr hpw.1
      simp only [List.cons_append, get_analysis_loop, hns, if_false, hnt,
        if_true, reduceIte]
      exact ih (elapsed + d0 + POLL_INTERVAL) hnc.2 hpw.2 p d rest

theorem get_analysis_loop_timeout (max_wait : Nat) (steps : List PollStep) :
    ∀ elapsed, noCompleted steps = true → exceedsCeiling max_wait elapsed steps = true →
      get_analysis_loop true max_wait elapsed steps =
        .error (.exceptionMsg "Analysis timeout - file is still being processed") := by
  induction steps with
  | nil => intro elapsed _ hex; exact Bool.noConfusion hex
  | cons step rest ih =>
      intro elapsed hnc hex
      obtain ⟨s0, p0, d0⟩ := step
      simp only [noCompleted, Bool.and_eq_true, bne_iff_ne, ne_eq] at hnc
      simp only [exceedsCeiling, Bool.or_eq_true, decide_eq_true_eq] at hex
      by_cases hlt : max_wait < elapsed + d0
      · simp [get_analysis_loop, hnc.1, hlt]
      · have hex2 : exceedsCeiling max_wait (elapsed + d0 + POLL_INTERVAL) rest = true := by
          rcases hex with h | h
          · exact absurd h hlt
          · exact h
        simp only [get_analysis_loop, hnc.1, if_false, hlt, reduceIte]
        exact ih (elapsed + d0 + POLL_INTERVAL) hnc.2 hex2

theorem get_analysis_loop_not_ok (max_wait : Nat) (steps : List PollStep) :
    ∀ elapsed, noCompleted steps = true →
      ∀ p, get_analysis_loop true max_wait elapsed steps ≠ .ok p := by
  induction steps with
  | nil => intro elapsed _ p h; simp [get_analysis_loop] at h
  | cons step rest ih =>
      intro elapsed hnc p h
      obtain ⟨s0, p0, d0⟩ := step
      simp only [noCompleted, Bool.and_eq_true, bne_iff_ne, ne_eq] at hnc
      by_cases hlt : max_wait < elapsed + d0
      · simp [get_analysis_loop, hnc.1, hlt] at h
      · simp only [get_analysis_loop, hnc.1, if_false, hlt, reduceIte] at h
        exact ih (elapsed + d0 + POLL_INTERVAL) hnc.2 p h

/-- C2: with waiting enabled, a run of non-completed statuses whose timeout
checks all stay within the ceiling, followed by a `"completed"` status,
makes `get_analysis` return that final payload; a trace that never reports
`"completed"` and whose elapsed time exceeds the ceiling yields the timeout
error; a trace that never reports `"completed"` is never returned as a
success; consecutive attempts are separated by the fixed 5-second sleep
(`POLL_INTERVAL`, threaded through the elapsed-time accumulator), and the
default ceiling is 300 seconds. -/
theorem C2_polling_behaviour :
    POLL_INTERVAL = 5 ∧ DEFAULT_MAX_WAIT = 300 ∧
    (∀ max_wait (pre : List PollStep) (p : Json) (d : Nat) (rest : List PollStep),
      noCompleted pre = true → pollsWithin max_wait 0 pre = true →
      get_analysis true max_wait (pre ++ ("completed", p, d) :: rest) = .ok p) ∧
    (∀ max_wait (steps : List PollStep),
      noCompleted steps = true → exceedsCeiling max_wait 0 steps = true →
      get_analysis true max_wait steps =
        .error (.exceptionMsg "Analysis timeout - file is still being processed")) ∧
    (∀ max_wait (steps : List PollStep) (p : Json),
      noCompleted steps = true → get_analysis true max_wait steps ≠ .ok p) := by
  refine ⟨rfl, rfl, ?_, ?_, ?_⟩
  · intro max_wait pre p d rest hnc hpw
    exact get_analysis_loop_completes max_wait pre 0 hnc hpw p d rest
  · intro max_wait steps hnc hex
    exact get_analysis_loop_timeout max_wait steps 0 hnc hex
  · intro max_wait steps p hnc
    exact get_analysis_loop_not_ok max_wait steps 0 hnc p

/-- Witness for C2: one queued poll then completion yields the payload; a
single queued poll observed after 400 seconds yields the timeout error. -/
theorem C2_polling_behaviour_witness :
    get_analysis true 300 ([("queued", Json.null, 1)] ++ ("completed", Json.str "done", 2) :: []) =
      .ok (Json.str "done") ∧
    get_analysis true 300 [("queued", Json.null, 400)] =
      .error (.exceptionMsg "Analysis timeout - file is still being processed") :=
  ⟨C2_polling_behaviour.2.2.1 300 [("queued", Json.null, 1)] (Json.str "done") 2 [] rfl rfl,
   C2_polling_behaviour.2.2.2.1 300 [("queued", Json.null, 400)] rfl rfl⟩

/-! ### The scan-file control flow (claims C5 and C7) -/

/-- C5: a 404 on the hash lookup is returned as "not found" (`None`) by
`check_hash`, and `scan_file` without force-upload then proceeds to the
upload-and-poll path; any other non-success lookup response (a transport
failure or a status `≥ 400` other than 404) makes `check_hash` raise the
wrapped lookup error, which is fatal for the scan. -/
theorem C5_not_found_uploads :
    (∀ body, check_hash (.resp 404 body) = .ok none) ∧
    (∀ (env : ScanEnv) body, env.file_exists = true → env.lookup_resp = .resp 404 body →
      scan_file env false = scan_upload_and_poll env) ∧
    (∀ r, fatalLookupResp r = true →
      check_hash r = .error (.exceptionMsg "Error checking hash")) ∧
    (∀ (env : ScanEnv), env.file_exists = true → fatalLookupResp env.lookup_resp = true →
      scan_file env false = .error (.exceptionMsg "Error checking hash")) := by
  have hch : ∀ r, fatalLookupResp r = true →
      check_hash r = .error (.exceptionMsg "Error checking hash") := by
    intro r hr
    cases r with
    | netFail => rfl
    | resp code body =>
        simp only [fatalLookupResp, Bool.and_eq_true, decide_eq_true_eq] at hr
        have h200 : ¬(code = 200) := by omega
        have h404 : ¬(code = 404) := hr.2
        simp [check_hash, h200, h404, raisesForStatus, hr.1]
  refine ⟨fun body => rfl, ?_, hch, ?_⟩
  · intro env body hex hlk
    simp [scan_file, hex, hlk, check_hash]
  · intro env hex hfatal
    simp [scan_file, hex, hch env.lookup_resp hfatal]

/-- Witness for C5 at a concrete environment: a 404 lookup proceeds to
upload-and-poll, and a 500 lookup is fatal. -/
theorem C5_not_found_uploads_witness :
    scan_file
      { file_exists := true, lookup_resp := .resp 404 Json.null,
        uploadEnv := { file_size := 0, upload_url_resp := .netFail, post := fun _ => .netFail },
        analysis_steps := [] } false =
      scan_upload_and_poll
        { file_exists := true, lookup_resp := .resp 404 Json.null,
          uploadEnv := { file_size := 0, upload_url_resp := .netFail, post := fun _ => .netFail },
          analysis_steps := [] } ∧
    scan_file
      { file_exists := true, lookup_resp := .resp 500 Json.null,
        uploadEnv := { file_size := 0, upload_url_resp := .netFail, post := fun _ => .netFail },
        analysis_steps := [] } false =
      .error (.exceptionMsg "Error checking hash") :=
  ⟨C5_not_found_uploads.2.1 _ Json.null rfl rfl,
   C5_not_found_uploads.2.2.2 _ rfl rfl⟩

/-- C7: with force-upload requested, `scan_file` never consults the hash
lookup: its result is invariant under the lookup response and equals the
upload-and-poll path, even when the lookup response would have reported the
hash as found (200 with a non-empty report, which without force-upload is
returned directly). -/
theorem C7_force_upload_skips_lookup :
    (∀ (env : ScanEnv), env.file_exists = true →
      scan_file env true = scan_upload_and_poll env) ∧
    (∀ (env : ScanEnv) (r : HttpResp),
      scan_file { env with lookup_resp := r } true = scan_file env true) ∧
    (∀ (env : ScanEnv) (d : Json), env.file_exists = true →
      env.lookup_resp = .resp 200 d → pyTruthy d = true →
      scan_file env false = .ok (d, false) ∧
      scan_file env true = scan_upload_and_poll env) := by
  have hforce : ∀ (env : ScanEnv), env.file_exists = true →
      scan_file env true = scan_upload_and_poll env := by
    intro env hex
    simp [scan_file, hex]
  refine ⟨hforce, ?_, ?_⟩
  · intro env r
    rfl
  · intro env d hex hlk htr
    refine ⟨?_, hforce env hex⟩
    simp [scan_file, hex, hlk, check_hash, htr]

/-- Witness for C7: with a 200 lookup response carrying a non-empty report,
plain scan returns it while force-upload takes the upload path. -/
theorem C7_force_upload_skips_lookup_witness :
    scan_file
      { file_exists := true, lookup_resp := .resp 200 (Json.obj [("x", Json.num 1)]),
        uploadEnv := { file_size := 0, upload_url_resp := .netFail, post := fun _ => .netFail },
        analysis_steps := [] } false =
      .ok (Json.obj [("x", Json.num 1)], false) ∧
    scan_file
      { file_exists := true, lookup_resp := .resp 200 (Json.obj [("x", Json.num 1)]),
        uploadEnv := { file_size := 0, upload_url_resp := .netFail, post := fun _ => .netFail },
        analysis_steps := [] } true =
      scan_upload_and_poll
        { file_exists := true, lookup_resp := .resp 200 (Json.obj [("x", Json.num 1)]),
          uploadEnv := { file_size := 0, upload_url_resp := .netFail, post := fun _ => .netFail },
          analysis_steps := [] } :=
  C7_force_upload_skips_lookup.2.2 _ (Json.obj [("x", Json.num 1)]) rfl rfl rfl

/-- C9: `upload_file` of a file strictly larger than the fixed 32 MiB
threshold first obtains the dedicated upload URL from the service and posts
the file bytes to it; a file at or below the threshold is posted directly to
the standard files endpoint. -/
theorem C9_upload_size_threshold :
    MAX_UPLOAD_SIZE = 32 * 1024 * 1024 ∧
    (∀ (env : UploadEnv), env.file_size ≤ MAX_UPLOAD_SIZE →
      upload_url_used env = .ok (.str FILES_URL) ∧
      upload_file env = upload_post env (.str FILES_URL)) ∧
    (∀ (env : UploadEnv), MAX_UPLOAD_SIZE < env.file_size →
      upload_url_used env = get_upload_url env ∧
      (∀ u, get_upload_url env = .ok u → upload_file env = upload_post env u)) := by
  refine ⟨rfl, ?_, ?_⟩
  · intro env hsmall
    have h : ¬(env.file_size > MAX_UPLOAD_SIZE) := Nat.not_lt.mpr hsmall
    constructor
    · simp [upload_url_used, h]
    · simp [upload_file, upload_url_used, h]
  · intro env hbig
    constructor
    · simp [upload_url_used, hbig]
    · intro u hu
      simp [upload_file, upload_url_used, hbig, hu]

/-- Witness for C9: a 1-byte file posts to the standard endpoint; a file one
byte over the threshold posts to the URL the service hands out. -/
theorem C9_upload_size_threshold_witness :
    (upload_url_used
        { file_size := 1, upload_url_resp := .netFail, post := fun _ => .netFail } =
      .ok (.str FILES_URL) ∧
     upload_file
        { file_size := 1, upload_url_resp := .netFail, post := fun _ => .netFail } =
      upload_post
        { file_size := 1, upload_url_resp := .netFail, post := fun _ => .netFail }
        (.str FILES_URL)) ∧
    upload_file
      { file_size := 32 * 1024 * 1024 + 1,
        upload_url_resp := .resp 200 (Json.obj [("data", Json.str "https://upload.example")]),
        post := fun _ => .netFail } =
    upload_post
      { file_size := 32 * 1024 * 1024 + 1,
        upload_url_resp := .resp 200 (Json.obj [("data", Json.str "https://upload.example")]),
        post := fun _ => .netFail }
      (Json.str "https://upload.example") :=
  ⟨C9_upload_size_threshold.2.1 _ (by decide),
   (C9_upload_size_threshold.2.2 _ (by decide)).2 (Json.str "https://upload.example") rfl⟩

/-! ### The result cache (claims C3 and C8) -/

theorem cacheFind_cacheErase (st : CacheState) (h : String) :
    cacheFind (cacheErase st h) h = none := by
  unfold cacheFind
  have : (cacheErase st h).find? (fun e => e.1 == h) = none := by
    rw [List.find?_eq_none]
    intro x hx
    have hmem := List.of_mem_filter hx
    simp only [bne_iff_ne, ne_eq] at hmem
    simp [hmem]
  rw [this]

/-- C3: storing a payload under a hash and looking it up at the same instant
(well inside the default 7-day freshness window) returns exactly that
payload and leaves the cache unchanged; looking up an entry whose age
strictly exceeds the freshness window returns nothing and deletes the entry
from the cache. -/
theorem C3_cache_roundtrip_and_expiry :
    DEFAULT_MAX_AGE_DAYS = 7 ∧
    (∀ (st : CacheState) (now : Int) (h : String) (p : Json),
      cache_result st now h p false = .ok (cacheInsert st h p now) ∧
      get_cached_result (cacheInsert st h p now) now h DEFAULT_MAX_AGE_DAYS =
        (some p, cacheInsert st h p now)) ∧
    (∀ (st : CacheState) (now : Int) (h : String) (p : Json) (mtime : Int),
      cacheFind st h = some (p, mtime) →
      DEFAULT_MAX_AGE_DAYS * 24 * 60 * 60 < now - mtime →
      get_cached_result st now h DEFAULT_MAX_AGE_DAYS = (none, cacheErase st h) ∧
      cacheFind (cacheErase st h) h = none) := by
  refine ⟨rfl, ?_, ?_⟩
  · intro st now h p
    constructor
    · rfl
    · have hfind : cacheFind (cacheInsert st h p now) h = some (p, now) := by
        simp [cacheFind, cacheInsert, List.find?]
      have hfresh : ¬(now - now > DEFAULT_MAX_AGE_DAYS * 24 * 60 * 60) := by
        simp [DEFAULT_MAX_AGE_DAYS]
      simp only [get_cached_result, hfind, hfresh, reduceIte]
  · intro st now h p mtime hfind hold
    refine ⟨?_, cacheFind_cacheErase st h⟩
    simp only [get_cached_result, hfind]
    have hstale : now - mtime > DEFAULT_MAX_AGE_DAYS * 24 * 60 * 60 := hold
    simp [hstale]

/-- Witness for C3 at a concrete cache: a fresh round-trip, and expiry of a
predated entry. -/
theorem C3_cache_roundtrip_and_expiry_witness :
    (cache_result [] 1000 "abc" (Json.str "payload") false =
      .ok (cacheInsert [] "abc" (Json.str "payload") 1000) ∧
     get_cached_result (cacheInsert [] "abc" (Json.str "payload") 1000) 1000 "abc"
        DEFAULT_MAX_AGE_DAYS =
      (some (Json.str "payload"), cacheInsert [] "abc" (Json.str "payload") 1000)) ∧
    (get_cached_result [("abc", Json.str "payload", 0)] 604801 "abc" DEFAULT_MAX_AGE_DAYS =
      (none, cacheErase [("abc", Json.str "payload", 0)] "abc") ∧
     cacheFind (cacheErase [("abc", Json.str "payload", 0)] "abc") "abc" = none) :=
  ⟨C3_cache_roundtrip_and_expiry.2.1 [] 1000 "abc" (Json.str "payload"),
   C3_cache_roundtrip_and_expiry.2.2 [("abc", Json.str "payload", 0)] 604801 "abc"
     (Json.str "payload") 0 rfl (by decide)⟩

/-- C8: `cache_result` persists the payload under the hash, overwriting any
prior entry for that hash, and a failing write is swallowed: the call always
returns normally (never raises), leaving the cache as it was. -/
theorem C8_cache_store_never_raises :
    (∀ (st : CacheState) (now : Int) (h : String) (p : Json) (writeFails : Bool),
      ∃ st2, cache_result st now h p writeFails = .ok st2) ∧
    (∀ (st : CacheState) (now : Int) (h : String) (p : Json),
      cache_result st now h p false = .ok (cacheInsert st h p now) ∧
      cacheFind (cacheInsert st h p now) h = some (p, now)) ∧
    (∀ (st : CacheState) (now : Int) (h : String) (p : Json),
      cache_result st now h p true = .ok st) := by
  refine ⟨?_, ?_, ?_⟩
  · intro st now h p writeFails
    cases writeFails with
    | false => exact ⟨cacheInsert st h p now, rfl⟩
    | true => exact ⟨st, rfl⟩
  · intro st now h p
    exact ⟨rfl, by simp [cacheFind, cacheInsert, List.find?]⟩
  · intro st now h p
    rfl

/-! ### Credential resolution (claim C10) -/

/-- C10: an empty `VT_API_KEY` environment value is treated as unset:
`get_api_key` behaves exactly as with no environment variable and falls
through to the persisted config file, returning the non-null key stored
there, and returns nothing only when the config file also yields no key; the
empty environment value itself is never returned. -/
theorem C10_empty_env_key_falls_through :
    (∀ cfg, get_api_key (some "") cfg = readApiKeyFromFile cfg) ∧
    (∀ cfg, get_api_key (some "") cfg = get_api_key none cfg) ∧
    (∀ (fs : List (String × Json)) (v : Json),
      fs.lookup "api_key" = some v → v ≠ Json.null →
      get_api_key (some "") (.content fs) = some v) ∧
    (∀ cfg, readApiKeyFromFile cfg = none → get_api_key (some "") cfg = none) := by
  refine ⟨fun cfg => rfl, fun cfg => rfl, ?_, ?_⟩
  · intro fs v hlk hnn
    show readApiKeyFromFile (.content fs) = some v
    unfold readApiKeyFromFile
    dsimp only
    rw [hlk]
    cases v with
    | null => exact absurd rfl hnn
    | bool b => rfl
    | num n => rfl
    | str s => rfl
    | arr xs => rfl
    | obj f2 => rfl
  · intro cfg hnone
    show readApiKeyFromFile cfg = none
    exact hnone

/-- Witness for C10: with `VT_API_KEY=""` and a config file storing a key,
the stored key is returned; with an empty config file, nothing is. -/
theorem C10_empty_env_key_falls_through_witness :
    get_api_key (some "") (.content [("api_key", Json.str "stored-key")]) =
      some (Json.str "stored-key") ∧
    get_api_key (some "") (.content []) = none :=
  ⟨C10_empty_env_key_falls_through.2.2.1 [("api_key", Json.str "stored-key")]
      (Json.str "stored-key") rfl (fun h => Json.noConfusion h),
   C10_empty_env_key_falls_through.2.2.2 (.content []) rfl⟩

end VTCheck
